import Mathlib

/-!
Shallow embedding of the particle transition engine of
`src/components/editor/ParticleCanvas.tsx`.

Modelling conventions:
* JavaScript floating-point arithmetic is modelled by exact arithmetic
  (`ℝ` where the code calls trigonometric functions, `ℚ` for the purely
  rational timeline / generator / color-pipeline code, where proofs can be
  decided by evaluation).
* A JavaScript typed-array read `arr[idx]` is modelled as `List.get?`
  (`none` = out-of-bounds `undefined`); the idiom `arr[idx] || d` is
  modelled by `jsOr` / `jsOrQ`, which also maps the falsy value `0` to `d`,
  exactly as JavaScript does.
* A `NaN` produced by arithmetic on `undefined` is modelled as `none`
  (an `Option`-valued channel); `NaN` propagates through every later
  arithmetic operation and through `Math.max`/`Math.min`, hence the
  all-or-nothing propagation in `writtenColor`.
* `Math.random()` values consumed during an evaluation are passed in as
  explicit arguments (`rnd : ℝ`, or a stream `rng : ℕ → ℚ` indexed by the
  order of the calls).
-/

namespace ParticleFX

/-- The transition styles of `TransitionStyle` in `ParticleControls.tsx`:
the 15 string literals of the closed union type, plus `other` for any
unrecognized string value (the `switch` in `ParticleCanvas.tsx` has no
`default` case, so an unrecognized value leaves the initial values
`px = sx, py = sy, pz = sz` untouched). -/
inductive TransitionStyle where
  | morph | explode | swirl | wave | depth | dissolve | spiral | gravity
  | vortex | pixelate | shatter | magnetic | ripple | scatter | tornado
  | other (name : String)
deriving DecidableEq

/-- `easeInOutCubic` (ParticleCanvas.tsx lines 121–123). -/
noncomputable def easeInOutCubic (t : ℝ) : ℝ :=
  if t < 1/2 then 4 * t * t * t else 1 - (-2 * t + 2) ^ 3 / 2

/-- `Math.atan2 y x`, via the complex argument (same convention,
range `(-π, π]`, `atan2 0 0 = 0`). -/
noncomputable def atan2 (y x : ℝ) : ℝ :=
  Complex.arg (Complex.ofReal x + Complex.ofReal y * Complex.I)

/-- JavaScript truncation toward zero (used by the `%` operator). -/
noncomputable def truncR (x : ℝ) : ℤ :=
  if 0 ≤ x then ⌊x⌋ else ⌈x⌉

/-- The JavaScript remainder operator `a % b` on numbers:
`a - b * trunc (a / b)` (sign follows the dividend). -/
noncomputable def jsMod (a b : ℝ) : ℝ :=
  a - b * (truncR (a / b) : ℝ)

/-- The per-particle position produced by the `switch (transitionStyle)`
block of `ParticleSystem`'s frame loop (ParticleCanvas.tsx lines 200–378),
as a function of the source position `(sx, sy, sz)`, the target position
`(tx, ty, tz)`, the eased progress, the particle index `i`, the
accumulated playback `time`, and the `Math.random()` sample `rnd` that the
`explode` case draws.  The decimal literals of the source are written as
the equal rational literals. -/
noncomputable def evalPos (style : TransitionStyle) (rnd : ℝ)
    (source target : ℝ × ℝ × ℝ) (easedProgress : ℝ) (i : ℕ) (time : ℝ) :
    ℝ × ℝ × ℝ :=
  let sx := source.1; let sy := source.2.1; let sz := source.2.2
  let tx := target.1; let ty := target.2.1; let tz := target.2.2
  match style with
  | .morph =>
      (sx + (tx - sx) * easedProgress,
       sy + (ty - sy) * easedProgress,
       sz + (tz - sz) * easedProgress)
  | .explode =>
      let explodePhase :=
        if easedProgress < 1/2 then easedProgress * 2 else (1 - easedProgress) * 2
      let explodeForce := Real.sin (explodePhase * Real.pi) * 3
      let angle := atan2 sy sx
      if easedProgress < 1/2 then
        (sx + Real.cos (angle + (i : ℝ) * (1/100)) * explodeForce,
         sy + Real.sin (angle + (i : ℝ) * (1/100)) * explodeForce,
         sz + (rnd - 1/2) * explodeForce)
      else
        (tx + Real.cos (angle + (i : ℝ) * (1/100)) * explodeForce * (1 - easedProgress) * 2,
         ty + Real.sin (angle + (i : ℝ) * (1/100)) * explodeForce * (1 - easedProgress) * 2,
         tz)
  | .swirl =>
      let swirlAngle := easedProgress * Real.pi * 4
      let swirlRadius := Real.sin (easedProgress * Real.pi) * (1/2)
      let midX := sx + (tx - sx) * easedProgress
      let midY := sy + (ty - sy) * easedProgress
      let midZ := sz + (tz - sz) * easedProgress
      (midX + Real.cos (swirlAngle + (i : ℝ) * (2/100)) * swirlRadius,
       midY + Real.sin (swirlAngle + (i : ℝ) * (2/100)) * swirlRadius,
       midZ + Real.sin (swirlAngle * (1/2) + (i : ℝ) * (1/100)) * swirlRadius * (1/2))
  | .wave =>
      let waveOffset := Real.sin (easedProgress * Real.pi * 2 + sx * 2) *
        (1 - |easedProgress - 1/2| * 2)
      (sx + (tx - sx) * easedProgress,
       sy + (ty - sy) * easedProgress + waveOffset * (1/2),
       sz + (tz - sz) * easedProgress +
         Real.cos (easedProgress * Real.pi * 2 + sy * 2) * waveOffset * (3/10))
  | .depth =>
      let depthPhase :=
        if easedProgress < 1/2 then easedProgress * 2 else (1 - easedProgress) * 2
      let depthOffset := Real.sin (depthPhase * Real.pi) * 5
      if easedProgress < 1/2 then
        (sx, sy, sz - depthOffset)
      else
        (tx, ty, tz - depthOffset * (1 - easedProgress) * 2)
  | .dissolve =>
      let dissolveProgress := easedProgress
      let noise := Real.sin ((i : ℝ) * (1/10) + time) * (1/2)
      let fade :=
        if dissolveProgress < 1/2 then Real.sin (dissolveProgress * Real.pi)
        else Real.sin ((1 - dissolveProgress) * Real.pi)
      (sx + (tx - sx) * dissolveProgress + noise * fade,
       sy + (ty - sy) * dissolveProgress + Real.cos ((i : ℝ) * (1/10) + time) * (3/10) * fade,
       sz + (tz - sz) * dissolveProgress + Real.sin ((i : ℝ) * (5/100) + time * 2) * fade)
  | .spiral =>
      let spiralAngle := easedProgress * Real.pi * 6 + (i : ℝ) * (1/1000)
      let spiralRadius := Real.sin (easedProgress * Real.pi) * 2
      let spiralHeight := easedProgress * 2 - 1
      (sx + (tx - sx) * easedProgress + Real.cos spiralAngle * spiralRadius * (3/10),
       sy + (ty - sy) * easedProgress + Real.sin spiralAngle * spiralRadius * (3/10),
       sz + (tz - sz) * easedProgress + spiralHeight * (1/2))
  | .gravity =>
      let fallPhase :=
        if easedProgress < 1/2 then easedProgress * 2 else (1 - easedProgress) * 2
      let fallAmount := fallPhase ^ 2 * 3
      let bounceOffset := |Real.sin (fallPhase * Real.pi * 3)| * (1 - fallPhase) * (1/2)
      if easedProgress < 1/2 then
        (sx, sy - fallAmount + bounceOffset, sz)
      else
        (tx, ty - fallAmount * (1 - easedProgress) * 2 + bounceOffset, tz)
  | .vortex =>
      let vortexAngle := easedProgress * Real.pi * 8
      let vortexRadius := (1 - easedProgress) * Real.sqrt (sx * sx + sy * sy) * (1/2)
      let vortexZ := easedProgress * 4 - 2
      (sx + (tx - sx) * easedProgress + Real.cos (vortexAngle + atan2 sy sx) * vortexRadius,
       sy + (ty - sy) * easedProgress + Real.sin (vortexAngle + atan2 sy sx) * vortexRadius,
       sz + (tz - sz) * easedProgress + vortexZ * Real.sin (easedProgress * Real.pi))
  | .pixelate =>
      let gridSize : ℝ := 1/5
      let snapPhase := Real.sin (easedProgress * Real.pi)
      let snappedSx := (round (sx / gridSize) : ℝ) * gridSize
      let snappedSy := (round (sy / gridSize) : ℝ) * gridSize
      let snappedTx := (round (tx / gridSize) : ℝ) * gridSize
      let snappedTy := (round (ty / gridSize) : ℝ) * gridSize
      (sx + (snappedSx - sx) * snapPhase + (tx - sx) * easedProgress +
         (snappedTx - tx) * (1 - snapPhase) * easedProgress,
       sy + (snappedSy - sy) * snapPhase + (ty - sy) * easedProgress +
         (snappedTy - ty) * (1 - snapPhase) * easedProgress,
       sz + (tz - sz) * easedProgress)
  | .shatter =>
      let shatterPhase :=
        if easedProgress < 1/2 then easedProgress * 2 else (1 - easedProgress) * 2
      let shatterOffset := Real.sin (shatterPhase * Real.pi) * 2
      let angle := atan2 sy sx + (i : ℝ) * (1/1000)
      let randomDir := jsMod (Real.sin ((i : ℝ) * (129898/10000)) * (437585453/10000)) 1
      if easedProgress < 1/2 then
        (sx + Real.cos angle * shatterOffset * randomDir,
         sy + Real.sin angle * shatterOffset * randomDir - shatterPhase * 2,
         sz + (randomDir - 1/2) * shatterOffset)
      else
        (tx + Real.cos angle * shatterOffset * randomDir * (1 - easedProgress),
         ty + Real.sin angle * shatterOffset * randomDir * (1 - easedProgress),
         tz)
  | .magnetic =>
      let magnetPhase := Real.sin (easedProgress * Real.pi)
      let centerDist := Real.sqrt (sx * sx + sy * sy)
      let attractForce := magnetPhase * (if centerDist > 1 then -(1/2) else 3/2)
      (sx + (tx - sx) * easedProgress + sx * attractForce * (3/10),
       sy + (ty - sy) * easedProgress + sy * attractForce * (3/10),
       sz + (tz - sz) * easedProgress + magnetPhase * (1/2))
  | .ripple =>
      let dist := Real.sqrt (sx * sx + sy * sy)
      let rippleWave := Real.sin (dist * 5 - easedProgress * Real.pi * 4) * (1 - easedProgress)
      (sx + (tx - sx) * easedProgress,
       sy + (ty - sy) * easedProgress,
       sz + (tz - sz) * easedProgress + rippleWave * (1/2))
  | .scatter =>
      let scatterPhase :=
        if easedProgress < 3/10 then easedProgress / (3/10)
        else if easedProgress > 7/10 then (1 - easedProgress) / (3/10)
        else 1
      let randomX := (jsMod (Real.sin ((i : ℝ) * (129898/10000)) * (437585453/10000)) 1 - 1/2) * 4
      let randomY := (jsMod (Real.cos ((i : ℝ) * (78233/1000)) * (437585453/10000)) 1 - 1/2) * 4
      let randomZ := (jsMod (Real.sin ((i : ℝ) * (432323/10000)) * (437585453/10000)) 1 - 1/2) * 2
      (sx + (tx - sx) * easedProgress + randomX * scatterPhase,
       sy + (ty - sy) * easedProgress + randomY * scatterPhase,
       sz + (tz - sz) * easedProgress + randomZ * scatterPhase)
  | .tornado =>
      let tornadoAngle := easedProgress * Real.pi * 8 + (i : ℝ) * (1/1000)
      let heightFactor := ((i % 100 : ℕ) : ℝ) / 100
      let tornadoRadius := (1 - heightFactor) * (1/2) + Real.sin (easedProgress * Real.pi) * (1/2)
      (sx + (tx - sx) * easedProgress + Real.cos tornadoAngle * tornadoRadius,
       sy + (ty - sy) * easedProgress + (heightFactor - 1/2) * 2 * Real.sin (easedProgress * Real.pi),
       sz + (tz - sz) * easedProgress + Real.sin tornadoAngle * tornadoRadius)
  | .other _ =>
      (sx, sy, sz)

lemma easeInOutCubic_zero : easeInOutCubic 0 = 0 := by
  simp [easeInOutCubic]

lemma easeInOutCubic_one : easeInOutCubic 1 = 1 := by
  norm_num [easeInOutCubic]

lemma easeInOutCubic_half : easeInOutCubic (1/2) = 1/2 := by
  norm_num [easeInOutCubic]

/-! ## Timeline Mapper (ParticleCanvas.tsx lines 584–603 and 166–168) -/

/-- The `transitionDuration` of the timeline `useMemo`
(line 594): `duration / transitionCount` with
`transitionCount = assets.length - 1`. -/
def transitionDurationOf (imageCount : ℕ) (duration : ℚ) : ℚ :=
  duration / ((imageCount : ℚ) - 1)

/-- The `(currentImageIndex, transitionProgress)` computed by the timeline
`useMemo` (lines 584–603): `(0, 0)` for zero or one asset, otherwise
`currentIndex = min (floor (currentTime / transitionDuration)) (transitionCount - 1)`
and `progress = min 1 ((currentTime - currentIndex * transitionDuration) / transitionDuration)`. -/
def timelineIndexProgress (imageCount : ℕ) (currentTime duration : ℚ) : ℤ × ℚ :=
  if imageCount = 0 then (0, 0)
  else if imageCount = 1 then (0, 0)
  else
    let transitionCount : ℤ := (imageCount : ℤ) - 1
    let transitionDuration : ℚ := transitionDurationOf imageCount duration
    let currentIndex : ℤ :=
      min (Int.floor (currentTime / transitionDuration)) (transitionCount - 1)
    let transitionStart : ℚ := (currentIndex : ℚ) * transitionDuration
    let progress : ℚ := min 1 ((currentTime - transitionStart) / transitionDuration)
    (currentIndex, progress)

/-- `nextImageIndex = (currentImageIndex + 1) % Math.max(1, images.length)`
(line 167); the dividend is nonnegative, so JavaScript `%` agrees with
`Int.emod`. -/
def nextImageIndex (currentImageIndex : ℤ) (imageCount : ℕ) : ℤ :=
  (currentImageIndex + 1) % (max 1 (imageCount : ℤ))

/-! ## Particle Generator (`generateParticlesFromImage`, lines 54–119) -/

/-- The `ImageData` consumed by the generator: dimensions and the flat
row-major RGBA byte array (values 0–255). -/
structure ImageSample where
  width : ℕ
  height : ℕ
  data : List ℕ

/-- `aspectRatio = width / height` (line 59). -/
def aspectRatio (img : ImageSample) : ℚ :=
  (img.width : ℚ) / (img.height : ℚ)

/-- `scaleX = 4 * aspectRatio` (line 60); `scaleY` is the constant 4. -/
def scaleX (img : ImageSample) : ℚ := 4 * aspectRatio img

/-- The `validPixels` list (lines 63–81): row-major scan collecting every
pixel with alpha `> 0.1` (on the 0–1 scale) together with its coordinates
and RGB channels normalized to `[0,1]`.  An entry is
`(x, y, r, g, b)`. -/
def validPixels (img : ImageSample) : List (ℕ × ℕ × ℚ × ℚ × ℚ) :=
  (List.range img.height).flatMap fun y =>
    (List.range img.width).filterMap fun x =>
      let pixelIndex := (y * img.width + x) * 4
      let a : ℚ := (img.data.getD (pixelIndex + 3) 0 : ℚ) / 255
      if 1/10 < a then
        some (x, y, (img.data.getD pixelIndex 0 : ℚ) / 255,
          (img.data.getD (pixelIndex + 1) 0 : ℚ) / 255,
          (img.data.getD (pixelIndex + 2) 0 : ℚ) / 255)
      else none

/-- The position of particle `i` written by the generator loop
(lines 84–116).  `rng` is the stream of `Math.random()` samples in call
order: in the valid-pixel branch each particle draws three samples
(`jitterX`, `jitterY`, `pz`), in the fallback branch two (`x`, `y`). -/
def genPos (img : ImageSample) (particleCount : ℕ) (rng : ℕ → ℚ) (i : ℕ) : ℚ × ℚ × ℚ :=
  let vp := validPixels img
  if vp.length > 0 then
    let pixelIdx : ℕ := (Int.floor (((i : ℚ) / (particleCount : ℚ)) * (vp.length : ℚ))).toNat
    let pixel := vp.getD (min pixelIdx (vp.length - 1)) (0, 0, 0, 0, 0)
    let jitterX := (rng (3 * i) - 1/2) * (5/100)
    let jitterY := (rng (3 * i + 1) - 1/2) * (5/100)
    let px := ((pixel.1 : ℚ) / (img.width : ℚ) - 1/2) * scaleX img + jitterX
    let py := -((pixel.2.1 : ℚ) / (img.height : ℚ) - 1/2) * 4 + jitterY
    let pz := (rng (3 * i + 2) - 1/2) * (1/10)
    (px, py, pz)
  else
    ((rng (2 * i) - 1/2) * scaleX img,
     (rng (2 * i + 1) - 1/2) * 4,
     0)

/-- The color of particle `i` written by the generator loop
(lines 102–105 / 112–114): the sampled pixel's RGB, or the neutral
mid-gray `(0.5, 0.5, 0.5)` in the fallback branch. -/
def genColor (img : ImageSample) (particleCount : ℕ) (i : ℕ) : ℚ × ℚ × ℚ :=
  let vp := validPixels img
  if vp.length > 0 then
    let pixelIdx : ℕ := (Int.floor (((i : ℚ) / (particleCount : ℚ)) * (vp.length : ℚ))).toNat
    let pixel := vp.getD (min pixelIdx (vp.length - 1)) (0, 0, 0, 0, 0)
    (pixel.2.2.1, pixel.2.2.2.1, pixel.2.2.2.2)
  else
    (1/2, 1/2, 1/2)

/-- `generateParticlesFromImage` (lines 54–119): the flat `positions` and
`colors` arrays, particle `i` occupying indices `3i, 3i+1, 3i+2`. -/
def generateParticlesFromImage (img : ImageSample) (particleCount : ℕ)
    (rng : ℕ → ℚ) : List ℚ × List ℚ :=
  ((List.range particleCount).flatMap fun i =>
      [(genPos img particleCount rng i).1,
       (genPos img particleCount rng i).2.1,
       (genPos img particleCount rng i).2.2],
   (List.range particleCount).flatMap fun i =>
      [(genColor img particleCount i).1,
       (genColor img particleCount i).2.1,
       (genColor img particleCount i).2.2])

/-! ## Buffer reads and the color pipeline (frame loop, lines 189–432) -/

/-- The JavaScript idiom `arr[idx] || d` on a `Float32Array` over `ℝ`:
out-of-bounds reads (`undefined`) and the falsy value `0` both yield the
default. -/
noncomputable def jsOr (v : Option ℝ) (d : ℝ) : ℝ :=
  match v with
  | none => d
  | some x => if x = 0 then d else x

/-- `jsOr` over `ℚ` (for the color stage, which is pure rational
arithmetic). -/
def jsOrQ (v : Option ℚ) (d : ℚ) : ℚ :=
  match v with
  | none => d
  | some x => if x = 0 then d else x

/-- The source position read of the frame loop (lines 192–194):
`sx = sourcePositions[idx] || 0`, etc. -/
noncomputable def frameSource (sourcePositions : List ℝ) (i : ℕ) : ℝ × ℝ × ℝ :=
  (jsOr (sourcePositions.get? (3 * i)) 0,
   jsOr (sourcePositions.get? (3 * i + 1)) 0,
   jsOr (sourcePositions.get? (3 * i + 2)) 0)

/-- The target position read of the frame loop (lines 196–198):
`tx = targetPositions[idx] || sx`, etc. -/
noncomputable def frameTarget (targetPositions : List ℝ) (s : ℝ × ℝ × ℝ) (i : ℕ) :
    ℝ × ℝ × ℝ :=
  (jsOr (targetPositions.get? (3 * i)) s.1,
   jsOr (targetPositions.get? (3 * i + 1)) s.2.1,
   jsOr (targetPositions.get? (3 * i + 2)) s.2.2)

/-- The displayed position of particle `i` (lines 189–397, idle motion and
depth effect disabled): the style dispatch applied to the buffer reads. -/
noncomputable def framePosition (style : TransitionStyle) (rnd : ℝ)
    (sourcePositions targetPositions : List ℝ) (easedProgress : ℝ) (i : ℕ)
    (time : ℝ) : ℝ × ℝ × ℝ :=
  let s := frameSource sourcePositions i
  evalPos style rnd s (frameTarget targetPositions s i) easedProgress i time

/-- One channel of the interpolation branch (lines 408–410):
`r = sourceColors[idx] + ((targetColors[idx] || sourceColors[idx]) - sourceColors[idx]) * easedProgress`.
The source read is unguarded, so a missing (`undefined`) source channel
makes the whole expression `NaN`, modelled as `none`. -/
def interpChannel (s t : Option ℚ) (easedProgress : ℚ) : Option ℚ :=
  match s with
  | none => none
  | some sv => some (sv + (jsOrQ t sv - sv) * easedProgress)

/-- The color entering the grading stage (lines 399–411): the verbatim
pass-through branch when `transitionProgress == 0 || images.length <= 1`
(each channel `sourceColors[idx] || 0.5`), otherwise per-channel linear
interpolation by the eased progress. -/
def preGradeColor (sourceColors targetColors : List ℚ) (imagesLen : ℕ)
    (transitionProgress easedProgress : ℚ) (i : ℕ) :
    Option ℚ × Option ℚ × Option ℚ :=
  if transitionProgress = 0 ∨ imagesLen ≤ 1 then
    (some (jsOrQ (sourceColors.get? (3 * i)) (1/2)),
     some (jsOrQ (sourceColors.get? (3 * i + 1)) (1/2)),
     some (jsOrQ (sourceColors.get? (3 * i + 2)) (1/2)))
  else
    (interpChannel (sourceColors.get? (3 * i)) (targetColors.get? (3 * i)) easedProgress,
     interpChannel (sourceColors.get? (3 * i + 1)) (targetColors.get? (3 * i + 1)) easedProgress,
     interpChannel (sourceColors.get? (3 * i + 2)) (targetColors.get? (3 * i + 2)) easedProgress)

/-- `Math.max(0, Math.min(1, c))` (lines 430–432). -/
def clamp01 (c : ℚ) : ℚ := max 0 (min 1 c)

/-- The color grading of lines 413–432: brightness multiply, contrast
around 0.5, saturation mix toward the luma gray, then clamp each channel
to `[0,1]`. -/
def gradeClamp (colorContrast colorSaturation colorBrightness : ℚ)
    (r0 g0 b0 : ℚ) : ℚ × ℚ × ℚ :=
  let r1 := r0 * colorBrightness
  let g1 := g0 * colorBrightness
  let b1 := b0 * colorBrightness
  let r2 := (r1 - 1/2) * colorContrast + 1/2
  let g2 := (g1 - 1/2) * colorContrast + 1/2
  let b2 := (b1 - 1/2) * colorContrast + 1/2
  let gray := r2 * (299/1000) + g2 * (587/1000) + b2 * (114/1000)
  let r3 := gray + (r2 - gray) * colorSaturation
  let g3 := gray + (g2 - gray) * colorSaturation
  let b3 := gray + (b2 - gray) * colorSaturation
  (clamp01 r3, clamp01 g3, clamp01 b3)

/-- The color triple written to the render buffer (lines 399–432):
grading applied to the pre-grade color.  If any pre-grade channel is `NaN`
(`none`), the luma `gray` is `NaN` and the saturation mix makes every
written channel `NaN` — `Math.max`/`Math.min` propagate `NaN`. -/
def writtenColor (sourceColors targetColors : List ℚ) (imagesLen : ℕ)
    (transitionProgress easedProgress colorContrast colorSaturation colorBrightness : ℚ)
    (i : ℕ) : Option ℚ × Option ℚ × Option ℚ :=
  match preGradeColor sourceColors targetColors imagesLen transitionProgress easedProgress i with
  | (some r, some g, some b) =>
      let out := gradeClamp colorContrast colorSaturation colorBrightness r g b
      (some out.1, some out.2.1, some out.2.2)
  | _ => (none, none, none)

/-! ## Theorems -/

lemma clamp01_mem (c : ℚ) : 0 ≤ clamp01 c ∧ clamp01 c ≤ 1 :=
  ⟨le_max_left 0 _, max_le (by norm_num) (min_le_left 1 c)⟩

/-- C4: for every particle, every input color, and every contrast,
saturation, and brightness multiplier, each output channel of the color
pipeline (brightness, then contrast `(c-0.5)*contrast+0.5`, then
saturation mix toward `gray = 0.299r+0.587g+0.114b`, then clamp) lies in
`[0,1]`. -/
theorem c4_color_clamp (colorContrast colorSaturation colorBrightness r g b : ℚ) :
    (0 ≤ (gradeClamp colorContrast colorSaturation colorBrightness r g b).1 ∧
      (gradeClamp colorContrast colorSaturation colorBrightness r g b).1 ≤ 1) ∧
    (0 ≤ (gradeClamp colorContrast colorSaturation colorBrightness r g b).2.1 ∧
      (gradeClamp colorContrast colorSaturation colorBrightness r g b).2.1 ≤ 1) ∧
    (0 ≤ (gradeClamp colorContrast colorSaturation colorBrightness r g b).2.2 ∧
      (gradeClamp colorContrast colorSaturation colorBrightness r g b).2.2 ≤ 1) :=
  ⟨clamp01_mem _, clamp01_mem _, clamp01_mem _⟩

/-- C6: whenever the image count is 0 or 1, the timeline mapper returns
`currentIndex = 0`, `progress = 0`, and `nextImageIndex = 0`, so no
transition occurs. -/
theorem c6_single_image_static (imageCount : ℕ) (currentTime duration : ℚ)
    (h : imageCount ≤ 1) :
    timelineIndexProgress imageCount currentTime duration = (0, 0) ∧
    nextImageIndex 0 imageCount = 0 := by
  interval_cases imageCount
  · exact ⟨by simp [timelineIndexProgress], by decide⟩
  · exact ⟨by simp [timelineIndexProgress], by decide⟩

/-- Witness for C6 at `imageCount = 1`, `currentTime = 7`,
`duration = 3`. -/
theorem c6_single_image_static_witness :
    timelineIndexProgress 1 7 3 = (0, 0) ∧ nextImageIndex 0 1 = 0 :=
  c6_single_image_static 1 7 3 (by decide)

/-- C8: with 2 images, duration 10 and current time 5, the timeline yields
`transitionDuration = 10`, `currentIndex = 0`, `progress = 1/2`; the cubic
in/out easing maps `1/2` to exactly `1/2`, and the `morph` style then
displays exactly the midpoint of source and target for every particle. -/
theorem c8_midpoint_scenario :
    transitionDurationOf 2 10 = 10 ∧
    timelineIndexProgress 2 5 10 = (0, 1/2) ∧
    easeInOutCubic (1/2) = 1/2 ∧
    ∀ (rnd sx sy sz tx ty tz time : ℝ) (i : ℕ),
      evalPos .morph rnd (sx, sy, sz) (tx, ty, tz) (easeInOutCubic (1/2)) i time =
        ((sx + tx) / 2, (sy + ty) / 2, (sz + tz) / 2) := by
  refine ⟨by norm_num [transitionDurationOf],
    by norm_num [timelineIndexProgress, transitionDurationOf, Prod.ext_iff],
    easeInOutCubic_half, ?_⟩
  intro rnd sx sy sz tx ty tz time i
  rw [easeInOutCubic_half]
  simp only [evalPos, Prod.mk.injEq]
  refine ⟨by ring, by ring, by ring⟩

/-- C2 (amended): an unrecognized style value never raises and leaves the
displayed position at the source position (the `switch` has no `default`
case, so the initial `px = sx, py = sy, pz = sz` survive) — it does not
behave like `morph`. -/
theorem c2_unknown_style_freezes (name : String) (rnd : ℝ)
    (sx sy sz tx ty tz easedProgress time : ℝ) (i : ℕ) :
    evalPos (.other name) rnd (sx, sy, sz) (tx, ty, tz) easedProgress i time =
      (sx, sy, sz) := rfl

/-- Counterexample to C2 as stated: at mid-transition an unknown style and
`morph` disagree — `morph` moves the particle halfway to the target, the
unknown style leaves it at the source. -/
theorem c2_unknown_style_not_morph :
    evalPos (.other "glitch") 0 (0, 0, 0) (1, 0, 0) (easeInOutCubic (1/2)) 0 0 ≠
    evalPos .morph 0 (0, 0, 0) (1, 0, 0) (easeInOutCubic (1/2)) 0 0 := by
  rw [easeInOutCubic_half]
  simp only [evalPos]
  intro h
  have h1 := congrArg Prod.fst h
  norm_num at h1

/-- C3 (code evaluated at the failing input): with `transitionProgress = 0`
(pass-through branch) and source color `(0, 1/4, 1/2)`, the red channel
enters grading as `0.5`, not `0` — JavaScript's `sourceColors[idx] || 0.5`
treats the channel value `0` as falsy.  The nonzero channels do pass
verbatim. -/
theorem c3_zero_channel_becomes_half :
    preGradeColor [0, 1/4, 1/2] [] 1 0 0 0 =
      (some (1/2), some (1/4), some (1/2)) := by
  norm_num [preGradeColor, jsOrQ, List.get?]

/-- C1 (amended): boundary continuity holds exactly (hence within any
tolerance) for 10 of the 15 transition styles — morph, explode, swirl,
wave, depth, dissolve, gravity, shatter, magnetic, scatter: at
`progress = 0` the displayed position is exactly the source and at
`progress = 1` exactly the target, for every particle, random sample and
time (idle motion and depth effect disabled).  The remaining styles
(spiral, vortex, pixelate, ripple, tornado) deviate beyond the `1e-5`
tolerance at one or both boundaries. -/
theorem c1_boundary_continuity (style : TransitionStyle)
    (h : style ∈ [TransitionStyle.morph, .explode, .swirl, .wave, .depth,
      .dissolve, .gravity, .shatter, .magnetic, .scatter])
    (rnd sx sy sz tx ty tz time : ℝ) (i : ℕ) :
    evalPos style rnd (sx, sy, sz) (tx, ty, tz) (easeInOutCubic 0) i time = (sx, sy, sz) ∧
    evalPos style rnd (sx, sy, sz) (tx, ty, tz) (easeInOutCubic 1) i time = (tx, ty, tz) := by
  have h0 : (0 : ℝ) < 1/2 := by norm_num
  have h1 : ¬((1 : ℝ) < 1/2) := by norm_num
  have h03 : (0 : ℝ) < 3/10 := by norm_num
  have h13 : ¬((1 : ℝ) < 3/10) := by norm_num
  have h17 : (1 : ℝ) > 7/10 := by norm_num
  have habs0 : |(0 : ℝ) - 1/2| = 1/2 := by rw [abs_of_nonpos] <;> norm_num
  have habs1 : |(1 : ℝ) - 1/2| = 1/2 := by rw [abs_of_nonneg] <;> norm_num
  have habs : |(1/2 : ℝ)| = 1/2 := abs_of_pos (by norm_num)
  rw [easeInOutCubic_zero, easeInOutCubic_one]
  fin_cases h <;>
    refine ⟨?_, ?_⟩ <;>
      simp only [evalPos, if_pos h0, if_neg h1, if_pos h03, if_neg h13,
        if_pos h17, Prod.mk.injEq] <;>
        norm_num [Real.sin_zero, Real.sin_pi, habs0, habs1, habs]

/-- Witness for C1 (amended) at the `morph` style and concrete inputs. -/
theorem c1_boundary_continuity_witness :
    evalPos .morph 0 (1, 2, 3) (4, 5, 6) (easeInOutCubic 0) 0 0 = (1, 2, 3) ∧
    evalPos .morph 0 (1, 2, 3) (4, 5, 6) (easeInOutCubic 1) 0 0 = (4, 5, 6) :=
  c1_boundary_continuity .morph (by decide) 0 1 2 3 4 5 6 0 0

/-- Counterexample to C1 as stated: for the `spiral` style at
`progress = 0` the displayed z-coordinate is `sz - 0.5` (the term
`spiralHeight * 0.5` with `spiralHeight = -1` does not vanish), which is
farther than the `1e-5` tolerance from the source position. -/
theorem c1_spiral_breaks_boundary :
    ¬ (|(evalPos .spiral 0 (0, 0, 0) (1, 1, 1) (easeInOutCubic 0) 0 0).2.2 - 0| ≤
      1/100000) := by
  have hz : (evalPos TransitionStyle.spiral 0 (0, 0, 0) (1, 1, 1)
      (easeInOutCubic 0) 0 0).2.2 = -(1/2) := by
    rw [easeInOutCubic_zero]
    simp only [evalPos]
    norm_num
  rw [hz, sub_zero, abs_neg, abs_of_pos (by norm_num : (0 : ℝ) < 1/2)]
  norm_num

/-- C9 (amended): with the `Math.random()` sample made an explicit input,
every style other than `explode` is a deterministic function of the listed
inputs — its output does not depend on the random sample at all. -/
theorem c9_rnd_independent (style : TransitionStyle)
    (h : style ≠ TransitionStyle.explode) (rnd1 rnd2 : ℝ) (s t : ℝ × ℝ × ℝ)
    (easedProgress : ℝ) (i : ℕ) (time : ℝ) :
    evalPos style rnd1 s t easedProgress i time =
      evalPos style rnd2 s t easedProgress i time := by
  cases style <;> first | rfl | exact absurd rfl h

/-- Witness for C9 (amended) at the `morph` style and concrete inputs. -/
theorem c9_rnd_independent_witness :
    evalPos .morph 0 (1, 2, 3) (4, 5, 6) (1/2) 0 0 =
      evalPos .morph 1 (1, 2, 3) (4, 5, 6) (1/2) 0 0 :=
  c9_rnd_independent .morph (by decide) 0 1 (1, 2, 3) (4, 5, 6) (1/2) 0 0

/-- Counterexample to C9 as stated: the `explode` style calls
`Math.random()` during evaluation, so two evaluations at identical listed
inputs (same buffers, style, progress, index, time) but different ambient
random samples produce different z-coordinates (at eased progress `1/16`
the force envelope `sin(π/8) * 3` is nonzero). -/
theorem c9_explode_not_deterministic :
    evalPos .explode 0 (0, 0, 0) (0, 0, 0) (easeInOutCubic (1/4)) 0 0 ≠
    evalPos .explode 1 (0, 0, 0) (0, 0, 0) (easeInOutCubic (1/4)) 0 0 := by
  have he : easeInOutCubic (1/4) = 1/16 := by norm_num [easeInOutCubic]
  rw [he]
  have hF : 0 < Real.sin (1/16 * 2 * Real.pi) := by
    apply Real.sin_pos_of_pos_of_lt_pi
    · positivity
    · nlinarith [Real.pi_pos]
  intro h
  have h3 := congrArg (fun p => p.2.2) h
  have hc : (1/16 : ℝ) < 1/2 := by norm_num
  simp only [evalPos, if_pos hc] at h3
  nlinarith [hF]

/-! ## Timeline monotonicity (C7) -/

lemma transitionDurationOf_pos (n : ℕ) (d : ℚ) (hn : 2 ≤ n) (hd : 0 < d) :
    0 < transitionDurationOf n d := by
  have h2 : (2 : ℚ) ≤ (n : ℚ) := by exact_mod_cast hn
  exact div_pos hd (by linarith)

lemma timeline_unfold (n : ℕ) (t d : ℚ) (hn : 2 ≤ n) :
    timelineIndexProgress n t d =
      (min (Int.floor (t / transitionDurationOf n d)) ((n : ℤ) - 1 - 1),
       min 1 ((t - ((min (Int.floor (t / transitionDurationOf n d)) ((n : ℤ) - 1 - 1) : ℤ) : ℚ) *
         transitionDurationOf n d) / transitionDurationOf n d)) := by
  have hn0 : n ≠ 0 := by omega
  have hn1 : n ≠ 1 := by omega
  simp only [timelineIndexProgress, if_neg hn0, if_neg hn1]

/-- C7: for at least 2 images and positive duration, (i) two times in the
same transition window (same `currentIndex`) have non-decreasing
`progress`; (ii) at the window boundary `currentTime = k * transitionDuration`
(`0 < k < imageCount - 1`) the mapper yields index `k` and progress
exactly 0; (iii) everywhere inside the previous window the index is
`k - 1`, so crossing the boundary increments the index by 1. -/
theorem c7_monotonic_and_boundary :
    (∀ (n : ℕ) (d t1 t2 : ℚ), 2 ≤ n → 0 < d → 0 ≤ t1 → t1 ≤ t2 → t2 ≤ d →
      (timelineIndexProgress n t1 d).1 = (timelineIndexProgress n t2 d).1 →
      (timelineIndexProgress n t1 d).2 ≤ (timelineIndexProgress n t2 d).2) ∧
    (∀ (n : ℕ) (d : ℚ) (k : ℕ), 2 ≤ n → 0 < d → 0 < k → (k : ℤ) < (n : ℤ) - 1 →
      timelineIndexProgress n ((k : ℚ) * transitionDurationOf n d) d = ((k : ℤ), 0)) ∧
    (∀ (n : ℕ) (d t : ℚ) (k : ℕ), 2 ≤ n → 0 < d → 0 < k → (k : ℤ) < (n : ℤ) - 1 →
      ((k : ℚ) - 1) * transitionDurationOf n d ≤ t →
      t < (k : ℚ) * transitionDurationOf n d →
      (timelineIndexProgress n t d).1 = (k : ℤ) - 1) := by
  refine ⟨?_, ?_, ?_⟩
  · intro n d t1 t2 hn hd _ h12 _ hidx
    have htd := transitionDurationOf_pos n d hn hd
    rw [timeline_unfold n t1 d hn, timeline_unfold n t2 d hn] at hidx ⊢
    simp only at hidx ⊢
    rw [hidx]
    refine min_le_min le_rfl ?_
    gcongr
  · intro n d k hn hd hk hkn
    have htd := transitionDurationOf_pos n d hn hd
    have htdne : transitionDurationOf n d ≠ 0 := ne_of_gt htd
    rw [timeline_unfold _ _ _ hn]
    have hdiv : ((k : ℚ) * transitionDurationOf n d) / transitionDurationOf n d = (k : ℚ) := by
      field_simp
    have hfloor : Int.floor (((k : ℚ) * transitionDurationOf n d) / transitionDurationOf n d)
        = (k : ℤ) := by
      rw [hdiv]
      exact_mod_cast Int.floor_intCast (k : ℤ)
    have hmin : min ((k : ℤ)) ((n : ℤ) - 1 - 1) = (k : ℤ) := min_eq_left (by omega)
    rw [hfloor, hmin]
    refine Prod.ext rfl ?_
    simp only
    push_cast
    rw [sub_self, zero_div]
    exact min_eq_right (by norm_num)
  · intro n d t k hn hd hk hkn hlo hhi
    have htd := transitionDurationOf_pos n d hn hd
    rw [timeline_unfold _ _ _ hn]
    simp only
    have hfloor : Int.floor (t / transitionDurationOf n d) = (k : ℤ) - 1 := by
      rw [Int.floor_eq_iff]
      constructor
      · push_cast
        rw [le_div_iff₀ htd]
        linarith
      · push_cast
        rw [div_lt_iff₀ htd]
        linarith
    rw [hfloor]
    exact min_eq_left (by omega)

/-- Witness for C7 at 3 images, duration 10 (transition windows of 5
seconds): monotonicity inside the first window at times 1 and 2, the
boundary instant `k = 1` (time 5), and the previous-window index at
time 2. -/
theorem c7_monotonic_and_boundary_witness :
    ((timelineIndexProgress 3 1 10).2 ≤ (timelineIndexProgress 3 2 10).2) ∧
    (timelineIndexProgress 3 ((1 : ℚ) * transitionDurationOf 3 10) 10 = ((1 : ℤ), 0)) ∧
    ((timelineIndexProgress 3 2 10).1 = (1 : ℤ) - 1) :=
  ⟨c7_monotonic_and_boundary.1 3 10 1 2 (by norm_num) (by norm_num) (by norm_num)
      (by norm_num) (by norm_num)
      (by norm_num [timelineIndexProgress, transitionDurationOf]),
   c7_monotonic_and_boundary.2.1 3 10 1 (by norm_num) (by norm_num) (by norm_num)
      (by norm_num),
   c7_monotonic_and_boundary.2.2 3 10 2 1 (by norm_num) (by norm_num) (by norm_num)
      (by norm_num) (by norm_num [transitionDurationOf])
      (by norm_num [transitionDurationOf])⟩

/-! ## Particle Generator totality (C5) -/

lemma flat3_length (F : ℕ → ℚ × ℚ × ℚ) (n : ℕ) :
    ((List.range n).flatMap fun i => [(F i).1, (F i).2.1, (F i).2.2]).length = 3 * n := by
  induction n with
  | zero => rfl
  | succ m ih =>
      rw [List.range_succ, List.flatMap_append, List.length_append, ih]
      simp [List.flatMap]
      omega

lemma flat3_const (c : ℚ) (n : ℕ) :
    ((List.range n).flatMap fun _ => ([c, c, c] : List ℚ)) = List.replicate (3 * n) c := by
  induction n with
  | zero => rfl
  | succ m ih =>
      rw [List.range_succ, List.flatMap_append, ih,
        show 3 * (m + 1) = 3 * m + 3 by ring, List.replicate_add]
      simp [List.flatMap, List.replicate_succ]

lemma scaleX_nonneg (img : ImageSample) : 0 ≤ scaleX img := by
  unfold scaleX aspectRatio
  positivity

/-- C5: the generator is total — for every sample, particle count and
random stream the flat position and color arrays have length exactly
`3 * count`; and when no pixel passes the alpha threshold the color
buffer is exactly mid-gray `0.5` everywhere, while (for random samples in
`[0,1)`, as `Math.random` produces) every fallback position lies inside
the object-space window `[-scaleX/2, scaleX/2] × [-2, 2] × {0}`. -/
theorem c5_generator_total (img : ImageSample) (particleCount : ℕ) (rng : ℕ → ℚ) :
    (generateParticlesFromImage img particleCount rng).1.length = 3 * particleCount ∧
    (generateParticlesFromImage img particleCount rng).2.length = 3 * particleCount ∧
    (validPixels img = [] →
      (generateParticlesFromImage img particleCount rng).2 =
        List.replicate (3 * particleCount) (1/2) ∧
      ((∀ m, 0 ≤ rng m ∧ rng m < 1) → ∀ i,
        |(genPos img particleCount rng i).1| ≤ scaleX img / 2 ∧
        |(genPos img particleCount rng i).2.1| ≤ 2 ∧
        (genPos img particleCount rng i).2.2 = 0)) := by
  refine ⟨flat3_length _ _, flat3_length _ _, ?_⟩
  intro hvp
  constructor
  · have hgc : ∀ i, genColor img particleCount i = (1/2, 1/2, 1/2) := by
      intro i
      simp [genColor, hvp]
    simp only [generateParticlesFromImage, hgc]
    exact flat3_const _ _
  · intro hrng i
    have h1l := (hrng (2 * i)).1
    have h1r := (hrng (2 * i)).2
    have h2l := (hrng (2 * i + 1)).1
    have h2r := (hrng (2 * i + 1)).2
    have hx : |rng (2 * i) - 1/2| ≤ 1/2 := abs_le.mpr ⟨by linarith, by linarith⟩
    have hy : |rng (2 * i + 1) - 1/2| ≤ 1/2 := abs_le.mpr ⟨by linarith, by linarith⟩
    simp only [genPos, hvp, List.length_nil, gt_iff_lt, lt_irrefl, if_false]
    refine ⟨?_, ?_, trivial⟩
    · rw [abs_mul, abs_of_nonneg (scaleX_nonneg img)]
      calc |rng (2 * i) - 1/2| * scaleX img ≤ (1/2) * scaleX img :=
            mul_le_mul_of_nonneg_right hx (scaleX_nonneg img)
        _ = scaleX img / 2 := by ring
    · rw [abs_mul]
      calc |rng (2 * i + 1) - 1/2| * |(4 : ℚ)| ≤ (1/2) * 4 := by
            rw [show |(4 : ℚ)| = 4 from abs_of_pos (by norm_num)]
            exact mul_le_mul_of_nonneg_right hy (by norm_num)
        _ = 2 := by ring

/-- Witness for C5: a 1×1 fully transparent sample (alpha byte 0), one
particle, constant random stream `1/2`. -/
theorem c5_generator_total_witness :
    (generateParticlesFromImage ⟨1, 1, [0, 0, 0, 0]⟩ 1 (fun _ => 1/2)).1.length = 3 ∧
    (generateParticlesFromImage ⟨1, 1, [0, 0, 0, 0]⟩ 1 (fun _ => 1/2)).2 =
      List.replicate 3 (1/2) ∧
    |(genPos ⟨1, 1, [0, 0, 0, 0]⟩ 1 (fun _ => 1/2) 0).1| ≤ scaleX ⟨1, 1, [0, 0, 0, 0]⟩ / 2 := by
  have hvp : validPixels ⟨1, 1, [0, 0, 0, 0]⟩ = [] := by
    norm_num [validPixels, List.range, List.range.loop]
  have h := c5_generator_total ⟨1, 1, [0, 0, 0, 0]⟩ 1 (fun _ => 1/2)
  have h3 := h.2.2 hvp
  exact ⟨h.1, h3.1, (h3.2 (fun m => by norm_num) 0).1⟩

/-! ## Frame-loop buffer reads (C10) -/

/-- C10 (amended): the evaluator is defined at every particle index for
arbitrarily short buffers — missing source coordinates read as 0, missing
target coordinates default to the source, and a missing source color
channel defaults to 0.5 *in the pass-through branch*
(`progress == 0 || images.length <= 1`); in the interpolating branch the
written channels are defined whenever the source channels are in bounds,
but a missing source channel there produces `NaN` (see the
counterexample), so the claim's "no undefined value ever reaches the
written output" holds only outside that case. -/
theorem c10_short_buffer_defaults :
    (∀ (src : List ℝ) (i : ℕ), src.length ≤ 3 * i → frameSource src i = (0, 0, 0)) ∧
    (∀ (tgt : List ℝ) (s : ℝ × ℝ × ℝ) (i : ℕ), tgt.length ≤ 3 * i →
      frameTarget tgt s i = s) ∧
    (∀ (srcC tgtC : List ℚ) (imagesLen : ℕ) (prog eased : ℚ) (i : ℕ),
      (prog = 0 ∨ imagesLen ≤ 1) → srcC.length ≤ 3 * i →
      preGradeColor srcC tgtC imagesLen prog eased i =
        (some (1/2), some (1/2), some (1/2))) ∧
    (∀ (srcC tgtC : List ℚ) (imagesLen : ℕ) (prog eased cc cs cb : ℚ) (i : ℕ)
      (r1 r2 r3 : ℚ), ¬(prog = 0 ∨ imagesLen ≤ 1) →
      srcC.get? (3 * i) = some r1 → srcC.get? (3 * i + 1) = some r2 →
      srcC.get? (3 * i + 2) = some r3 →
      ∃ v1 v2 v3, writtenColor srcC tgtC imagesLen prog eased cc cs cb i =
        (some v1, some v2, some v3)) := by
  refine ⟨?_, ?_, ?_, ?_⟩
  · intro src i h
    have e0 : src[3 * i]? = none := List.getElem?_eq_none h
    have e1 : src[3 * i + 1]? = none := List.getElem?_eq_none (by omega)
    have e2 : src[3 * i + 2]? = none := List.getElem?_eq_none (by omega)
    simp [frameSource, e0, e1, e2, jsOr]
  · intro tgt s i h
    have e0 : tgt[3 * i]? = none := List.getElem?_eq_none h
    have e1 : tgt[3 * i + 1]? = none := List.getElem?_eq_none (by omega)
    have e2 : tgt[3 * i + 2]? = none := List.getElem?_eq_none (by omega)
    simp [frameTarget, e0, e1, e2, jsOr]
  · intro srcC tgtC imagesLen prog eased i hbr h
    have e0 : srcC[3 * i]? = none := List.getElem?_eq_none h
    have e1 : srcC[3 * i + 1]? = none := List.getElem?_eq_none (by omega)
    have e2 : srcC[3 * i + 2]? = none := List.getElem?_eq_none (by omega)
    simp [preGradeColor, if_pos hbr, e0, e1, e2, jsOrQ]
  · intro srcC tgtC imagesLen prog eased cc cs cb i r1 r2 r3 hbr h1 h2 h3
    simp only [writtenColor, preGradeColor, if_neg hbr, h1, h2, h3, interpChannel]
    exact ⟨_, _, _, rfl⟩

/-- Witness for C10 (amended) on concrete short and in-bounds buffers. -/
theorem c10_short_buffer_defaults_witness :
    frameSource [] 0 = (0, 0, 0) ∧
    frameTarget [] (1, 2, 3) 0 = (1, 2, 3) ∧
    preGradeColor [] [] 1 0 0 0 = (some (1/2), some (1/2), some (1/2)) ∧
    (∃ v1 v2 v3, writtenColor [1/3, 1/3, 1/3] [] 2 (1/2) (1/2) 1 1 1 0 =
      (some v1, some v2, some v3)) :=
  ⟨c10_short_buffer_defaults.1 [] 0 (by decide),
   c10_short_buffer_defaults.2.1 [] (1, 2, 3) 0 (by decide),
   c10_short_buffer_defaults.2.2.1 [] [] 1 0 0 0 (Or.inr (by norm_num)) (by decide),
   c10_short_buffer_defaults.2.2.2 [1/3, 1/3, 1/3] [] 2 (1/2) (1/2) 1 1 1 0
     (1/3) (1/3) (1/3) (by norm_num) rfl rfl rfl⟩

/-- Counterexample to C10 as stated: with 2 images and `progress = 1/2`
(interpolation branch) and an empty source color buffer, the unguarded
read `sourceColors[idx]` is `undefined`, the interpolation produces `NaN`
(modelled `none`), and `Math.max(0, Math.min(1, NaN)) = NaN` writes it to
the output — an undefined value does reach the written output. -/
theorem c10_nan_reaches_output :
    writtenColor [] [] 2 (1/2) (1/2) 1 1 1 0 = (none, none, none) := by
  norm_num [writtenColor, preGradeColor, interpChannel, List.get?]

end ParticleFX
